import Mathlib

/-!
Verification of the route-installation core of `srtunectl` (main.go):
the error classifier, the route installer's destination parsing, the
outcome-recording `Stats` object with its asynchronous duplicates writer,
and the semaphore-bounded dispatcher of `addRoutesFromDir`.

Go strings are modelled as Lean `String`; Go `int64` counters as `Nat`
(they only ever increase by 1 from 0, so no overflow modelling is needed
for the properties at hand); Go errors as their error strings, since the
code only ever inspects `err.Error()` via `strings.Contains`.
-/

namespace Srtunectl

/-- `strPrefixAt pat l` : `pat` is a prefix of `l` (character lists). -/
def strPrefixAt : List Char → List Char → Bool
  | [], _ => true
  | _ :: _, [] => false
  | a :: as, b :: bs => a = b && strPrefixAt as bs

/-- Substring occurrence on character lists (contiguous). -/
def strContainsAux (pat : List Char) : List Char → Bool
  | [] => pat.isEmpty
  | l@(_ :: rest) => strPrefixAt pat l || strContainsAux pat rest

/-- Embedding of Go `strings.Contains(s, pat)`: `pat` occurs contiguously in `s`. -/
def goContains (s pat : String) : Bool :=
  strContainsAux pat.toList s.toList

/-- Embedding of `classifyError` (main.go:199-222): the nested
`strings.Contains` tests, in source order, on the error string. -/
def classifyError (errStr : String) : String :=
  if goContains errStr "file exists" then "file_exists"
  else if goContains errStr "network is unreachable" then "network_unreachable"
  else if goContains errStr "no such device" then "no_such_device"
  else if goContains errStr "operation not permitted" then "operation_not_permitted"
  else if goContains errStr "invalid argument" then "invalid_argument"
  else if goContains errStr "no route to host" then "no_route_to_host"
  else "unknown"

/-- The classification precedence exactly as the spec words it
(§4.1): pattern/category pairs, first match wins. -/
def classifyPrecedence : List (String × String) :=
  [("file exists", "file_exists"),
   ("network is unreachable", "network_unreachable"),
   ("no such device", "no_such_device"),
   ("operation not permitted", "operation_not_permitted"),
   ("invalid argument", "invalid_argument"),
   ("no route to host", "no_route_to_host")]

/-- Spec-side classifier (§4.1, for the refinement claim): scan the
precedence list, return the first matching category, else `unknown`. -/
def classifySpec (errStr : String) : String :=
  match classifyPrecedence.find? (fun p => goContains errStr p.1) with
  | some p => p.2
  | none => "unknown"

/-- The classifier's codomain: the seven category strings. -/
lemma classifyError_mem (e : String) :
    classifyError e = "file_exists" ∨ classifyError e = "network_unreachable" ∨
    classifyError e = "no_such_device" ∨ classifyError e = "operation_not_permitted" ∨
    classifyError e = "invalid_argument" ∨ classifyError e = "no_route_to_host" ∨
    classifyError e = "unknown" := by
  unfold classifyError
  split_ifs <;> simp

/-- C2: for every operating-system error string, the code's classifier
agrees with the spec's first-match-wins precedence scan
(file-exists, network-unreachable, no-such-device,
operation-not-permitted, invalid-argument, no-route-to-host, else
Unknown); being a pure total Lean function, it returns exactly one
category for every input and has no side effects. -/
theorem classifyError_refines_spec (e : String) :
    classifyError e = classifySpec e := by
  unfold classifyError classifySpec classifyPrecedence
  simp only [List.find?]
  split_ifs with h1 h2 h3 h4 h5 h6 <;> simp_all

/-! ## The Stats recorder and its duplicates writer (main.go:52-197)

The background writer goroutine is modelled by an explicit `WriterState`
folded over the records it consumes from `dupChan`; `createOk` is the
outcome of the `os.Create` call made lazily at the first flush (the code
logs a creation failure, clears the pending buffer, and continues). -/

/-- `duplicatesFlushThreshold` (main.go:29). -/
def duplicatesFlushThreshold : Nat := 10000

/-- State of the `duplicatesWriter` goroutine (main.go:79-129):
the in-memory batch, whether the output file has been created,
the lines written to it so far, and how many (nonempty) flushes ran. -/
structure WriterState where
  buffer : List String
  created : Bool
  fileLines : List String
  flushCount : Nat
deriving Repr, DecidableEq

/-- Writer state when the goroutine starts: empty batch, no file. -/
def initWriter : WriterState := ⟨[], false, [], 0⟩

/-- The `flush` closure (main.go:82-110): nothing on an empty buffer;
on `os.Create` failure (lazy creation, `createOk = false`) log and clear
the buffer without writing; otherwise create the file if needed and
append every buffered record as one line, then clear the buffer. -/
def wFlush (createOk : Bool) (st : WriterState) : WriterState :=
  if st.buffer.isEmpty then st
  else if !st.created && !createOk then { st with buffer := [] }
  else
    { buffer := [], created := true,
      fileLines := st.fileLines ++ st.buffer, flushCount := st.flushCount + 1 }

/-- One iteration of the consume loop (main.go:112-117): append the
record to the batch and flush once the threshold is reached. -/
def wStep (createOk : Bool) (st : WriterState) (route : String) : WriterState :=
  let st2 := { st with buffer := st.buffer ++ [route] }
  if duplicatesFlushThreshold ≤ st2.buffer.length then wFlush createOk st2 else st2

/-- The writer consuming `routes` from the channel and then, on channel
close, running the final flush (main.go:112-119). -/
def runWriterFrom (createOk : Bool) (st : WriterState) (routes : List String) : WriterState :=
  wFlush createOk (routes.foldl (wStep createOk) st)

/-- Full writer run from the initial state. -/
def runWriter (createOk : Bool) (routes : List String) : WriterState :=
  runWriterFrom createOk initWriter routes

/-- The `Stats` object (main.go:52-66): the seven outcome counters, the
buffered duplicates channel (records sent but not yet consumed), whether
`Close` has fired (channel closed), and the writer goroutine's state. -/
structure Stats where
  Success : Nat
  AlreadyExist : Nat
  NetworkUnreachable : Nat
  OperationNotPermit : Nat
  InvalidArgument : Nat
  NoRouteToHost : Nat
  UnknownError : Nat
  dupQueue : List String
  dupClosed : Bool
  writer : WriterState
deriving Repr, DecidableEq

/-- `NewStats` (main.go:68-77): zero counters, open channel, fresh writer. -/
def NewStats : Stats :=
  { Success := 0, AlreadyExist := 0, NetworkUnreachable := 0,
    OperationNotPermit := 0, InvalidArgument := 0, NoRouteToHost := 0,
    UnknownError := 0, dupQueue := [], dupClosed := false, writer := initWriter }

/-- `AddSuccess` (main.go:131-133). -/
def Stats.AddSuccess (s : Stats) : Stats := { s with Success := s.Success + 1 }

/-- `AddAlreadyExist` (main.go:135-138): atomic increment, then send the
record on `dupChan`. Sending on a closed channel panics in Go, modelled
as `none`. -/
def Stats.AddAlreadyExist (s : Stats) (route : String) : Option Stats :=
  if s.dupClosed then none
  else some { s with AlreadyExist := s.AlreadyExist + 1,
                     dupQueue := s.dupQueue ++ [route] }

/-- `AddError` (main.go:140-153): the `switch` on the error-kind string;
there is no `default` case, so any other string changes nothing. -/
def Stats.AddError (s : Stats) (errType : String) : Stats :=
  if errType = "network_unreachable" then
    { s with NetworkUnreachable := s.NetworkUnreachable + 1 }
  else if errType = "operation_not_permitted" then
    { s with OperationNotPermit := s.OperationNotPermit + 1 }
  else if errType = "invalid_argument" then
    { s with InvalidArgument := s.InvalidArgument + 1 }
  else if errType = "no_route_to_host" then
    { s with NoRouteToHost := s.NoRouteToHost + 1 }
  else if errType = "unknown" then
    { s with UnknownError := s.UnknownError + 1 }
  else s

/-- `Close` (main.go:192-197): guarded by `closeOnce`, it closes
`dupChan` (so the writer drains the remaining queued records, runs its
final flush and exits) and waits on `writerDone`. `dupClosed` doubles as
the once-guard: a second call is a no-op. -/
def Stats.Close (createOk : Bool) (s : Stats) : Stats :=
  if s.dupClosed then s
  else { s with dupClosed := true, dupQueue := [],
                writer := runWriterFrom createOk s.writer s.dupQueue }

/-- Sum of the seven outcome counters (the quantity of `PrintStats`'s
"Total processed" line, main.go:185-186). -/
def Stats.counterSum (s : Stats) : Nat :=
  s.Success + s.AlreadyExist + s.NetworkUnreachable + s.OperationNotPermit +
    s.InvalidArgument + s.NoRouteToHost + s.UnknownError

/-- One worker body of `addRoutesFromDir` (main.go:426-445), given the
destination and the result of `addRoute` (`none` = success, `some msg` =
the error string): classify, then dispatch to the recorder. A
`no_such_device` classification runs `log.Fatalf` and the closed-channel
panic aborts the process; both are modelled as `none`. -/
def workerStep (gateway ifaceName : String) (st : Stats)
    (att : String × Option String) : Option Stats :=
  match att.2 with
  | none => some st.AddSuccess
  | some errStr =>
    let errType := classifyError errStr
    if errType = "file_exists" then
      st.AddAlreadyExist (att.1 ++ " via " ++ gateway ++ " dev " ++ ifaceName)
    else if errType = "no_such_device" then none
    else some (st.AddError errType)

/-- A batch of attempts dispatched to the recorder. The per-counter
updates are single atomic increments, so the final counters do not
depend on the interleaving; the fold models any schedule. -/
def runBatch (gateway ifaceName : String) (st : Stats)
    (batch : List (String × Option String)) : Option Stats :=
  batch.foldlM (workerStep gateway ifaceName) st

/-! ## Writer lemmas -/

/-- With file creation succeeding, a flush empties the batch and moves
it wholesale onto the file. -/
lemma wFlush_true_spec (st : WriterState) :
    (wFlush true st).buffer = [] ∧
    (wFlush true st).fileLines = st.fileLines ++ st.buffer := by
  unfold wFlush
  split_ifs with h1 h2
  · rw [List.isEmpty_iff] at h1
    simp [h1]
  · simp at h2
  · exact ⟨rfl, rfl⟩

/-- A flush of a nonempty batch under successful file creation, written
as an explicit state. -/
lemma wFlush_true_full (st : WriterState) (h : st.buffer ≠ []) :
    wFlush true st =
      { buffer := [], created := true,
        fileLines := st.fileLines ++ st.buffer, flushCount := st.flushCount + 1 } := by
  unfold wFlush
  split_ifs with h1 h2
  · rw [List.isEmpty_iff] at h1
    exact absurd h1 h
  · simp at h2
  · rfl

/-- Unfolding of one intake iteration. -/
lemma wStep_eq (st : WriterState) (r : String) :
    wStep true st r =
      if duplicatesFlushThreshold ≤ (st.buffer ++ [r]).length then
        wFlush true { st with buffer := st.buffer ++ [r] }
      else { st with buffer := st.buffer ++ [r] } := rfl

/-- The records a writer holds (file plus batch) grow by exactly the
records consumed: nothing is dropped while intake runs. -/
lemma payload_foldl (routes : List String) :
    ∀ st : WriterState,
      (routes.foldl (wStep true) st).fileLines ++ (routes.foldl (wStep true) st).buffer
        = st.fileLines ++ st.buffer ++ routes := by
  induction routes with
  | nil => intro st; simp
  | cons r rs ih =>
    intro st
    rw [List.foldl_cons, wStep_eq, ih]
    split_ifs with h
    · rcases wFlush_true_spec { st with buffer := st.buffer ++ [r] } with ⟨hb, hf⟩
      rw [hb, hf]
      simp
    · simp

/-- Complete run (intake then final flush): the file ends up holding the
old payload followed by every consumed record. -/
lemma runWriterFrom_true_fileLines (routes : List String) (st : WriterState) :
    (runWriterFrom true st routes).fileLines = st.fileLines ++ st.buffer ++ routes := by
  unfold runWriterFrom
  rw [(wFlush_true_spec _).2, payload_foldl]

/-- The output file is created during a run exactly when the writer saw
at least one record (lazily, at the first nonempty flush). -/
lemma runWriterFrom_true_created (routes : List String) :
    ∀ st : WriterState,
      (runWriterFrom true st routes).created
        = (st.created || !(st.buffer ++ routes).isEmpty) := by
  induction routes with
  | nil =>
    intro st
    unfold runWriterFrom
    simp only [List.foldl_nil, List.append_nil]
    unfold wFlush
    split_ifs with h1 h2
    · rw [List.isEmpty_iff] at h1
      simp [h1]
    · simp at h2
    · simp [h1]
  | cons r rs ih =>
    intro st
    rw [show runWriterFrom true st (r :: rs) = runWriterFrom true (wStep true st r) rs from rfl,
        ih, wStep_eq]
    split_ifs with h
    · rcases wFlush_true_spec { st with buffer := st.buffer ++ [r] } with ⟨hb, _⟩
      rw [hb]
      unfold wFlush
      split_ifs with h1 h2
      · simp at h1
      · simp at h2
      · simp
    · simp

/-- Counting flushes while intake runs: with the batch below the
threshold, consuming `routes` performs `(batch + routes) / threshold`
threshold flushes and leaves `(batch + routes) % threshold` records
batched. -/
lemma foldl_wStep_count (routes : List String) :
    ∀ st : WriterState, st.buffer.length < duplicatesFlushThreshold →
      (routes.foldl (wStep true) st).flushCount
          = st.flushCount + (st.buffer.length + routes.length) / duplicatesFlushThreshold ∧
      (routes.foldl (wStep true) st).buffer.length
          = (st.buffer.length + routes.length) % duplicatesFlushThreshold := by
  induction routes with
  | nil =>
    intro st h
    unfold duplicatesFlushThreshold at h
    simp only [List.foldl_nil, List.length_nil, Nat.add_zero]
    unfold duplicatesFlushThreshold
    omega
  | cons r rs ih =>
    intro st h
    rw [List.foldl_cons, wStep_eq]
    split_ifs with hthr
    · rw [wFlush_true_full { st with buffer := st.buffer ++ [r] } (by simp)]
      rcases ih { buffer := [], created := true,
                  fileLines := st.fileLines ++ (st.buffer ++ [r]),
                  flushCount := st.flushCount + 1 }
          (by unfold duplicatesFlushThreshold; simp) with ⟨ihc, ihb⟩
      rw [ihc, ihb]
      simp only [List.length_append, List.length_cons, List.length_nil] at hthr ⊢
      unfold duplicatesFlushThreshold at h hthr ⊢
      constructor
      · omega
      · omega
    · rcases ih { st with buffer := st.buffer ++ [r] }
          (by simpa using hthr) with ⟨ihc, ihb⟩
      rw [ihc, ihb]
      dsimp only
      simp only [List.length_append, List.length_cons, List.length_nil]
      unfold duplicatesFlushThreshold
      constructor
      · omega
      · omega

/-! ## Stats lemmas -/

/-- Flushing an empty batch does nothing. -/
lemma wFlush_empty (ok : Bool) (st : WriterState) (h : st.buffer = []) :
    wFlush ok st = st := by
  unfold wFlush
  rw [h]
  simp

/-- `AddError` never touches `dupClosed`. -/
lemma addError_dupClosed (st : Stats) (t : String) :
    (st.AddError t).dupClosed = st.dupClosed := by
  unfold Stats.AddError
  split_ifs <;> rfl

/-- `AddError` never touches the duplicates channel. -/
lemma addError_dupQueue (st : Stats) (t : String) :
    (st.AddError t).dupQueue = st.dupQueue := by
  unfold Stats.AddError
  split_ifs <;> rfl

/-- Each of the five recognized kinds bumps the counter sum by one. -/
lemma counterSum_addError_five (st : Stats) (t : String)
    (h : t = "network_unreachable" ∨ t = "operation_not_permitted" ∨
         t = "invalid_argument" ∨ t = "no_route_to_host" ∨ t = "unknown") :
    (st.AddError t).counterSum = st.counterSum + 1 := by
  rcases h with h | h | h | h | h <;>
    (subst h
     unfold Stats.AddError Stats.counterSum
     split_ifs with h1 h2 h3 h4 h5 <;> (simp_all; try omega))

/-- After `Close` the channel is closed, whatever the prior state. -/
lemma close_dupClosed (ok : Bool) (st : Stats) :
    (Stats.Close ok st).dupClosed = true := by
  unfold Stats.Close
  split_ifs with h
  · exact h
  · rfl

/-- `Close` on an already-closed recorder is the identity
(the `closeOnce` guard). -/
lemma close_of_closed (ok : Bool) (st : Stats) (h : st.dupClosed = true) :
    Stats.Close ok st = st := by
  unfold Stats.Close
  rw [h]
  simp

/-- Two `Close` calls equal one. -/
lemma close_close (ok : Bool) (st : Stats) :
    Stats.Close ok (Stats.Close ok st) = Stats.Close ok st :=
  close_of_closed ok _ (close_dupClosed ok st)

/-- One worker attempt that did not abort the process adds exactly one
to the counter sum and leaves the channel open. -/
lemma workerStep_sum (gw ifn : String) (st st2 : Stats) (att : String × Option String)
    (hopen : st.dupClosed = false) (h : workerStep gw ifn st att = some st2) :
    st2.counterSum = st.counterSum + 1 ∧ st2.dupClosed = false := by
  rcases att with ⟨d, res⟩
  cases res with
  | none =>
    simp only [workerStep] at h
    injection h with h
    subst h
    refine ⟨?_, hopen⟩
    unfold Stats.counterSum Stats.AddSuccess
    dsimp only
    omega
  | some errStr =>
    simp only [workerStep] at h
    rcases classifyError_mem errStr with hc | hc | hc | hc | hc | hc | hc <;> rw [hc] at h
    · rw [if_pos rfl] at h
      unfold Stats.AddAlreadyExist at h
      rw [if_neg (by simp [hopen])] at h
      injection h with h
      subst h
      refine ⟨?_, hopen⟩
      unfold Stats.counterSum
      dsimp only
      omega
    · rw [if_neg (by decide), if_neg (by decide)] at h
      injection h with h
      subst h
      exact ⟨counterSum_addError_five st _ (Or.inl rfl),
             (addError_dupClosed st _).trans hopen⟩
    · rw [if_neg (by decide), if_pos rfl] at h
      exact absurd h (by simp)
    · rw [if_neg (by decide), if_neg (by decide)] at h
      injection h with h
      subst h
      exact ⟨counterSum_addError_five st _ (Or.inr (Or.inl rfl)),
             (addError_dupClosed st _).trans hopen⟩
    · rw [if_neg (by decide), if_neg (by decide)] at h
      injection h with h
      subst h
      exact ⟨counterSum_addError_five st _ (Or.inr (Or.inr (Or.inl rfl))),
             (addError_dupClosed st _).trans hopen⟩
    · rw [if_neg (by decide), if_neg (by decide)] at h
      injection h with h
      subst h
      exact ⟨counterSum_addError_five st _ (Or.inr (Or.inr (Or.inr (Or.inl rfl)))),
             (addError_dupClosed st _).trans hopen⟩
    · rw [if_neg (by decide), if_neg (by decide)] at h
      injection h with h
      subst h
      exact ⟨counterSum_addError_five st _ (Or.inr (Or.inr (Or.inr (Or.inr rfl)))),
             (addError_dupClosed st _).trans hopen⟩

/-- Counter sum over a whole batch, all destinations generalized. -/
lemma runBatch_sum_aux (gw ifn : String) (batch : List (String × Option String)) :
    ∀ st st2 : Stats, st.dupClosed = false →
      runBatch gw ifn st batch = some st2 →
      st2.counterSum = st.counterSum + batch.length := by
  induction batch with
  | nil =>
    intro st st2 _ hrun
    unfold runBatch at hrun
    simp only [List.foldlM_nil] at hrun
    injection hrun with hrun
    subst hrun
    simp
  | cons a l ih =>
    intro st st2 hopen hrun
    unfold runBatch at hrun
    rw [List.foldlM_cons] at hrun
    cases h1 : workerStep gw ifn st a with
    | none => rw [h1] at hrun; exact absurd hrun (by simp)
    | some s1 =>
      rw [h1] at hrun
      simp only [Option.bind_eq_bind, Option.some_bind] at hrun
      rcases workerStep_sum gw ifn st s1 a hopen h1 with ⟨hsum, hopen1⟩
      have hrest := ih s1 st2 hopen1 hrun
      simp only [List.length_cons]
      omega

/-! ## Claim theorems: recorder and writer -/

/-- C1: for every batch run to completion (no fatal `no_such_device`
escalation, channel open), the seven counters sum to the number of
destinations attempted — each attempt increments exactly one counter
exactly once, and since every increment is a single atomic add, the
total is independent of the concurrency limit and the interleaving
(the fold ranges over an arbitrary completion order). -/
theorem counters_sum_to_attempts (gw ifn : String)
    (batch : List (String × Option String)) (st st2 : Stats)
    (hopen : st.dupClosed = false)
    (hrun : runBatch gw ifn st batch = some st2) :
    st2.counterSum = st.counterSum + batch.length :=
  runBatch_sum_aux gw ifn batch st st2 hopen hrun

/-- A three-destination batch: one success, one duplicate, one
network-unreachable error. -/
def sampleBatch : List (String × Option String) :=
  [("10.0.0.0/24", none),
   ("10.0.0.0/24", some "file exists"),
   ("198.51.100.7", some "network is unreachable")]

/-- Concrete instance of C1 on `sampleBatch`. -/
theorem counters_sum_to_attempts_witness :
    ({ NewStats with
        Success := 1,
        AlreadyExist := 1,
        NetworkUnreachable := 1,
        dupQueue := ["10.0.0.0/24 via 10.0.0.1 dev tun0"] } : Stats).counterSum
      = NewStats.counterSum + sampleBatch.length :=
  counters_sum_to_attempts "10.0.0.1" "tun0" sampleBatch NewStats
    { NewStats with
        Success := 1,
        AlreadyExist := 1,
        NetworkUnreachable := 1,
        dupQueue := ["10.0.0.0/24 via 10.0.0.1 dev tun0"] }
    rfl (by decide)

/-- C5 (amended): records handed to the writer are pushed on a bounded
channel whose send blocks when full (Go channel semantics, never
dropping), and provided the duplicates file can be created, the
background writer writes every consumed record to the file, in order,
discarding nothing. -/
theorem duplicates_never_lost (routes : List String) :
    (runWriter true routes).fileLines = routes := by
  unfold runWriter
  rw [runWriterFrom_true_fileLines]
  rfl

/-- C5 counterexample: when the lazy `os.Create` fails at flush time,
the code logs the error and clears the batch, so a record handed to the
writer is never written anywhere — it is discarded, refuting the claim
that the writer never discards buffered records. -/
theorem duplicates_lost_on_create_failure :
    (runWriter false ["10.0.0.0/24 via 10.0.0.1 dev tun0"]).fileLines = [] ∧
    (runWriter false ["10.0.0.0/24 via 10.0.0.1 dev tun0"]).buffer = [] := by
  decide

/-- C6: the duplicates file is created lazily, exactly when at least one
record arrives (never on a duplicate-free run); every consumed record
becomes one line; and 20,000 `AlreadyExists` records are written as two
threshold flushes of 10,000 — the batch is cleared after each flush and
the final drain flush finds it empty. -/
theorem duplicates_flush_behaviour :
    (∀ routes : List String,
        (runWriter true routes).created = !routes.isEmpty ∧
        (runWriter true routes).fileLines.length = routes.length) ∧
    (runWriter true (List.replicate 20000 "198.51.100.0/24 via 10.0.0.1 dev tun0")).flushCount
        = 2 ∧
    (runWriter true (List.replicate 20000 "198.51.100.0/24 via 10.0.0.1 dev tun0")).fileLines.length
        = 20000 := by
  have hgen : ∀ routes : List String,
      (runWriter true routes).created = !routes.isEmpty ∧
      (runWriter true routes).fileLines.length = routes.length := by
    intro routes
    constructor
    · unfold runWriter
      rw [runWriterFrom_true_created]
      rfl
    · unfold runWriter
      rw [runWriterFrom_true_fileLines]
      simp [initWriter]
  refine ⟨hgen, ?_, ?_⟩
  · rcases foldl_wStep_count
        (List.replicate 20000 "198.51.100.0/24 via 10.0.0.1 dev tun0") initWriter
        (by decide) with ⟨hc, hb⟩
    unfold runWriter runWriterFrom
    rw [wFlush_empty true _ (List.length_eq_zero.mp
          (by rw [hb, List.length_replicate]; decide)), hc,
        List.length_replicate]
    decide
  · exact (hgen _).2.trans (by rw [List.length_replicate])

/-- C7: `close()` is idempotent — any number of invocations equals one
(the `closeOnce` guard makes later calls no-ops, so concurrent extra
calls also have no effect and simply wait) — and the one effective
invocation closes intake and drains: every record still buffered in the
channel or in the writer's batch ends up flushed to the file before the
consumer exits. In this total model `Close` always returns, matching
the join on `writerDone`. -/
theorem close_idempotent_and_drains (ok : Bool) (st : Stats) (n : Nat)
    (hopen : st.dupClosed = false) :
    (Stats.Close ok)^[n + 1] st = Stats.Close ok st ∧
    (Stats.Close true st).writer.fileLines
      = st.writer.fileLines ++ st.writer.buffer ++ st.dupQueue := by
  constructor
  · induction n with
    | zero => rfl
    | succ k ihk => rw [Function.iterate_succ_apply', ihk, close_close]
  · unfold Stats.Close
    rw [if_neg (by simp [hopen])]
    dsimp only
    rw [runWriterFrom_true_fileLines]

/-- A recorder mid-run: open channel, one queued record, one batched
record, one line already on disk. -/
def sampleOpenStats : Stats :=
  { NewStats with
    AlreadyExist := 3,
    dupQueue := ["192.0.2.0/24 via 10.0.0.1 dev tun0"],
    writer := { buffer := ["192.0.2.1 via 10.0.0.1 dev tun0"], created := true,
                fileLines := ["192.0.2.2 via 10.0.0.1 dev tun0"], flushCount := 1 } }

/-- Concrete instance of C7 on `sampleOpenStats`. -/
theorem close_idempotent_and_drains_witness :
    (Stats.Close true)^[3] sampleOpenStats = Stats.Close true sampleOpenStats ∧
    (Stats.Close true sampleOpenStats).writer.fileLines
      = sampleOpenStats.writer.fileLines ++ sampleOpenStats.writer.buffer
          ++ sampleOpenStats.dupQueue :=
  close_idempotent_and_drains true sampleOpenStats 2 rfl

/-- C9: `AddError` on any string outside the five recognized kinds is a
no-op — the whole `Stats` object, counters included, is unchanged; in
particular the classifier outputs `file_exists` and `no_such_device`
are silently dropped rather than counted as Unknown. -/
theorem addError_unrecognized_unchanged (st : Stats) (t : String)
    (h1 : t ≠ "network_unreachable") (h2 : t ≠ "operation_not_permitted")
    (h3 : t ≠ "invalid_argument") (h4 : t ≠ "no_route_to_host")
    (h5 : t ≠ "unknown") :
    st.AddError t = st ∧
    st.AddError "file_exists" = st ∧
    st.AddError "no_such_device" = st := by
  refine ⟨?_, rfl, rfl⟩
  unfold Stats.AddError
  rw [if_neg h1, if_neg h2, if_neg h3, if_neg h4, if_neg h5]

/-- Concrete instance of C9 at the dropped kind `file_exists`. -/
theorem addError_unrecognized_unchanged_witness :
    NewStats.AddError "file_exists" = NewStats ∧
    NewStats.AddError "file_exists" = NewStats ∧
    NewStats.AddError "no_such_device" = NewStats :=
  addError_unrecognized_unchanged NewStats "file_exists"
    (by decide) (by decide) (by decide) (by decide) (by decide)

/-- C10: once `Close` has completed, `AddAlreadyExist` sends on the
closed channel and panics (`none`); `AddSuccess` and `AddError` stay
safe — plain atomic counter updates that never touch the channel. -/
theorem record_after_close (ok : Bool) (st : Stats) (route errType : String) :
    (Stats.Close ok st).AddAlreadyExist route = none ∧
    (Stats.Close ok st).AddSuccess
      = { Stats.Close ok st with Success := (Stats.Close ok st).Success + 1 } ∧
    ((Stats.Close ok st).AddError errType).dupClosed = true ∧
    ((Stats.Close ok st).AddError errType).dupQueue = (Stats.Close ok st).dupQueue := by
  refine ⟨?_, rfl, ?_, addError_dupQueue _ _⟩
  · unfold Stats.AddAlreadyExist
    rw [if_pos (close_dupClosed ok st)]
  · rw [addError_dupClosed, close_dupClosed]

/-! ## The bounded dispatcher (main.go:420-448)

The per-file dispatch loop is a transition system: `sem` is a buffered
channel of capacity `goroutineCount`, so the channel-send in the range
loop (slot acquisition) succeeds only while fewer than `goroutineCount`
workers are in flight, and the deferred receive releases the slot when
the goroutine ends, on every path; `wg.Wait()` returns only once no
destination is pending or in flight. -/

/-- Dispatch state of one batch: destinations the range loop has not
yet reached, workers between slot acquisition and completion, and
completed destinations. -/
structure DispState where
  pending : List String
  inFlight : List String
  finished : List String
deriving Repr, DecidableEq

/-- Start of a batch (main.go:423): every destination pending. -/
def initDisp (batch : List String) : DispState :=
  { pending := batch, inFlight := [], finished := [] }

/-- Interleaving steps of the dispatch loop. `launch` models
`wg.Add(1); sem <- struct{}{}; go func(d)...` for the next destination:
it requires a free slot, so a worker is in flight only after acquiring
one of the `limit` slots. `finish` models a goroutine completing with
any outcome — `defer wg.Done()` and `defer func() { <-sem }()` run on
every path, including early returns, releasing the slot. -/
inductive DispStep (limit : Nat) : DispState → DispState → Prop
  | launch (d : String) (rest : List String) (s : DispState)
      (hpend : s.pending = d :: rest)
      (hslot : s.inFlight.length < limit) :
      DispStep limit s
        { pending := rest, inFlight := d :: s.inFlight, finished := s.finished }
  | finish (d : String) (l1 l2 : List String) (s : DispState)
      (hfly : s.inFlight = l1 ++ d :: l2) :
      DispStep limit s
        { pending := s.pending, inFlight := l1 ++ l2, finished := d :: s.finished }

/-- States reachable during one batch dispatch. -/
inductive DispReach (limit : Nat) (batch : List String) : DispState → Prop
  | init : DispReach limit batch (initDisp batch)
  | step (s s2 : DispState) (hs : DispReach limit batch s)
      (h : DispStep limit s s2) : DispReach limit batch s2

/-- Inductive invariant: the semaphore bounds the in-flight workers by
`limit`, and the three lists always partition the batch. -/
lemma disp_invariant (limit : Nat) (batch : List String) (s : DispState)
    (h : DispReach limit batch s) :
    s.inFlight.length ≤ limit ∧
    (s.pending ++ s.inFlight ++ s.finished).Perm batch := by
  induction h with
  | init => exact ⟨Nat.zero_le _, by simp [initDisp]⟩
  | step s s2 hs hstep ih =>
    rcases ih with ⟨ihlen, ihperm⟩
    cases hstep with
    | launch d rest s hpend hslot =>
      refine ⟨by simpa using hslot, ?_⟩
      refine List.Perm.trans ?_ ihperm
      rw [hpend]
      dsimp only
      exact List.Perm.append_right s.finished List.perm_middle
    | finish d l1 l2 s hfly =>
      constructor
      · have hlen : s.inFlight.length = l1.length + l2.length + 1 := by
          rw [hfly]
          simp only [List.length_append, List.length_cons]
          omega
        dsimp only
        simp only [List.length_append]
        omega
      · refine List.Perm.trans ?_ ihperm
        rw [hfly]
        dsimp only
        simp only [List.append_assoc, List.cons_append]
        exact List.Perm.append_left _ (List.Perm.append_left _ List.perm_middle)

/-- C8: in every state reachable from a batch's initial state, at most
`limit` route-installation workers are in flight (a worker enters the
in-flight set only by acquiring one of the `limit` semaphore slots, and
`finish` releases the slot whatever the outcome); and when `wg.Wait()`
lets the dispatcher return — nothing pending, nothing in flight — the
finished destinations are exactly the batch. -/
theorem dispatcher_bounded_and_joins (limit : Nat) (batch : List String)
    (s : DispState) (h : DispReach limit batch s) :
    s.inFlight.length ≤ limit ∧
    (s.pending = [] → s.inFlight = [] → s.finished.Perm batch) := by
  rcases disp_invariant limit batch s h with ⟨h1, h2⟩
  refine ⟨h1, fun hp hf => ?_⟩
  rw [hp, hf] at h2
  simpa using h2

/-- Concrete instance of C8: a one-destination batch with limit 1,
after launching and finishing that destination. -/
theorem dispatcher_bounded_and_joins_witness :
    (DispState.mk [] [] ["10.0.0.0/24"]).inFlight.length ≤ 1 ∧
    ((DispState.mk [] [] ["10.0.0.0/24"]).pending = [] →
      (DispState.mk [] [] ["10.0.0.0/24"]).inFlight = [] →
      (DispState.mk [] [] ["10.0.0.0/24"]).finished.Perm ["10.0.0.0/24"]) :=
  dispatcher_bounded_and_joins 1 ["10.0.0.0/24"] (DispState.mk [] [] ["10.0.0.0/24"])
    (DispReach.step _ _
      (DispReach.step _ _ DispReach.init
        (DispStep.launch "10.0.0.0/24" [] (initDisp ["10.0.0.0/24"]) rfl (by decide)))
      (DispStep.finish "10.0.0.0/24" [] []
        (DispState.mk [] ["10.0.0.0/24"] []) rfl))

/-! ## Destination parsing (main.go:340-364)

`addRoute` parses the destination with Go's `net.ParseCIDR`, falling
back to `net.ParseIP`. Both delegate to `netip.ParseAddr` in current Go
(and reject addresses carrying a `%zone`), so the netip grammar is
embedded here: dispatch on the first `.` or `:` to the IPv4 or IPv6
parser. Bytes are `Nat`s kept below 256 by the grammar itself. -/

/-- An address as Go's parsers classify it: IPv4 (4 bytes, `BitLen` 32)
or IPv6 (16 bytes, `BitLen` 128). -/
inductive GoIP
  | v4 (b0 b1 b2 b3 : Nat)
  | v6 (bytes : List Nat)
deriving Repr, DecidableEq

/-- `Addr.BitLen`: 32 for IPv4, 128 for IPv6. -/
def GoIP.bitLen : GoIP → Nat
  | .v4 _ _ _ _ => 32
  | .v6 _ => 128

/-- One dotted-decimal field of `parseIPv4Fields` (net/netip): at least
one digit, digits only, no leading zero in a multi-digit field, value
at most 255. -/
def parseV4Field (f : List Char) : Option Nat :=
  match f with
  | [] => none
  | c :: rest =>
    if c = '0' ∧ rest ≠ [] then none
    else if (c :: rest).all (fun ch => ch.isDigit) then
      let v := (c :: rest).foldl (fun acc ch => acc * 10 + (ch.toNat - 48)) 0
      if v ≤ 255 then some v else none
    else none

/-- `parseIPv4` (net/netip): exactly four '.'-separated fields. -/
def parseIPv4Raw (s : List Char) : Option (Nat × Nat × Nat × Nat) :=
  match (s.splitOn '.').mapM parseV4Field with
  | some [a, b, c, d] => some (a, b, c, d)
  | _ => none

/-- Value of a hexadecimal digit character, if it is one. -/
def hexVal (c : Char) : Option Nat :=
  if '0' ≤ c ∧ c ≤ '9' then some (c.toNat - 48)
  else if 'a' ≤ c ∧ c ≤ 'f' then some (c.toNat - 87)
  else if 'A' ≤ c ∧ c ≤ 'F' then some (c.toNat - 55)
  else none

/-- The inline hex-number scan of `parseIPv6` (net/netip): consume
leading hex digits into an accumulator, failing (`none`) if the value
reaches 2^16; returns the value, the number of digits consumed, and the
unconsumed remainder. -/
def hexGroupAux : List Char → Nat → Nat → Option (Nat × Nat × List Char)
  | [], acc, off => some (acc, off, [])
  | c :: cs, acc, off =>
    match hexVal c with
    | none => some (acc, off, c :: cs)
    | some v =>
      if acc * 16 + v ≥ 65536 then none
      else hexGroupAux cs (acc * 16 + v) (off + 1)

/-- The group loop of `parseIPv6` (net/netip), carrying the bytes
assembled so far (Go's `i` is their count) and the `::` position if
seen. Each iteration parses one hex group; a following `.` switches to
the embedded trailing IPv4 form; a following `:` continues, with `::`
recorded once; the loop ends at the string's end, at 16 bytes, or with
an error (`none`). `fuel` bounds the iterations (at most 8 groups). -/
def v6Loop : Nat → List Char → List Nat → Option Nat → Option (List Nat × Option Nat)
  | fuel, s, bytes, ell =>
    if 16 ≤ bytes.length then
      if s = [] then some (bytes, ell) else none
    else
      match fuel with
      | 0 => none
      | fuel + 1 =>
        match hexGroupAux s 0 0 with
        | none => none
        | some (acc, off, rest) =>
          if off = 0 then none
          else
            match rest with
            | '.' :: _ =>
              if ell = none ∧ bytes.length ≠ 12 then none
              else if 16 < bytes.length + 4 then none
              else
                match parseIPv4Raw s with
                | some (a, b, c, d) => some (bytes ++ [a, b, c, d], ell)
                | none => none
            | [] => some (bytes ++ [acc / 256, acc % 256], ell)
            | ':' :: rest2 =>
              let bytes2 := bytes ++ [acc / 256, acc % 256]
              match rest2 with
              | [] => none
              | ':' :: rest3 =>
                if ell ≠ none then none
                else
                  match rest3 with
                  | [] => some (bytes2, some bytes2.length)
                  | _ :: _ => v6Loop fuel rest3 bytes2 (some bytes2.length)
              | _ :: _ => v6Loop fuel rest2 bytes2 ell
            | _ :: _ => none

/-- Post-loop of `parseIPv6` (net/netip): with fewer than 16 bytes an
ellipsis must be present and expands to the missing zeros; with all 16
bytes an ellipsis is an error. -/
def v6Expand (bytes : List Nat) (ell : Option Nat) : Option (List Nat) :=
  if bytes.length = 16 then
    match ell with
    | none => some bytes
    | some _ => none
  else
    match ell with
    | none => none
    | some e => some (bytes.take e ++ List.replicate (16 - bytes.length) 0 ++ bytes.drop e)

/-- `parseIPv6` (net/netip), as used by `net.ParseIP`/`net.ParseCIDR`:
both reject addresses with a zone, so any `%` fails here. -/
def parseIPv6Raw (s : List Char) : Option (List Nat) :=
  if s.contains '%' then none
  else
    match s with
    | ':' :: ':' :: rest =>
      if rest = [] then some (List.replicate 16 0)
      else
        match v6Loop 8 rest [] (some 0) with
        | none => none
        | some (bytes, ell) => v6Expand bytes ell
    | _ =>
      match v6Loop 8 s [] none with
      | none => none
      | some (bytes, ell) => v6Expand bytes ell

/-- `netip.ParseAddr`'s dispatch: scan for the first `.`, `:` or `%`;
the first two select the IPv4/IPv6 grammar on the whole string, a `%`
first or no special character at all is a parse failure. -/
def addrDispatch (full : List Char) : List Char → Option GoIP
  | [] => none
  | c :: cs =>
    if c = '.' then
      match parseIPv4Raw full with
      | some (a, b, c2, d) => some (.v4 a b c2 d)
      | none => none
    else if c = ':' then
      match parseIPv6Raw full with
      | some bytes => some (.v6 bytes)
      | none => none
    else if c = '%' then none
    else addrDispatch full cs

/-- Embedding of `net.ParseIP` (returns `none` where Go returns `nil`). -/
def goParseIP (s : String) : Option GoIP :=
  addrDispatch s.toList s.toList

/-- Embedding of Go's `dtoi` combined with `ParseCIDR`'s use of it: the
whole string must be decimal digits, at least one, with the running
value staying below the `big` cutoff 0xFFFFFF. -/
def dtoiAll : List Char → Nat → Option Nat
  | [], acc => some acc
  | c :: cs, acc =>
    if c.isDigit then
      if acc * 10 + (c.toNat - 48) ≥ 16777215 then none
      else dtoiAll cs (acc * 10 + (c.toNat - 48))
    else none

/-- A `net.IPMask` produced by `CIDRMask(ones, bits)`. -/
structure GoIPMask where
  ones : Nat
  bits : Nat
deriving Repr, DecidableEq

/-- A `net.IPNet`: destination network and its mask. -/
structure GoIPNet where
  ip : GoIP
  mask : GoIPMask
deriving Repr, DecidableEq

/-- Bytewise AND with the leading-ones mask: keep the top `keep` bits
of a byte (Go `IP.Mask`, one byte). -/
def maskByte (keep : Nat) (b : Nat) : Nat :=
  b / 2 ^ (8 - keep) * 2 ^ (8 - keep)

/-- Go `IP.Mask` with `CIDRMask(n, BitLen)`: zero the host bits. -/
def GoIP.maskWith : GoIP → Nat → GoIP
  | .v4 a b c d, n =>
    .v4 (maskByte (min 8 n) a) (maskByte (min 8 (n - 8)) b)
       (maskByte (min 8 (n - 16)) c) (maskByte (min 8 (n - 24)) d)
  | .v6 bs, n => .v6 (bs.mapIdx (fun i b => maskByte (min 8 (n - 8 * i)) b))

/-- Embedding of `net.ParseCIDR`: split at the first `/`, parse the
left part as an address (zones rejected), the right as a decimal prefix
within the address's bit length; returns the unmasked address and the
network (address masked, `CIDRMask(prefix, BitLen)`). -/
def goParseCIDR (s : String) : Option (GoIP × GoIPNet) :=
  let l := s.toList
  if l.contains '/' then
    let addr := l.takeWhile (fun c => c ≠ '/')
    let maskStr := (l.dropWhile (fun c => c ≠ '/')).tail
    match addrDispatch addr addr with
    | none => none
    | some ip =>
      match maskStr with
      | [] => none
      | _ :: _ =>
        match dtoiAll maskStr 0 with
        | none => none
        | some n =>
          if ip.bitLen < n then none
          else some (ip, { ip := ip.maskWith n, mask := { ones := n, bits := ip.bitLen } })
  else none

/-- Error string of `net.ParseError` with `Type: "CIDR address"`, which
`ParseCIDR` returns on any failure. -/
def parseCIDRErrMsg (s : String) : String := "invalid CIDR address: " ++ s

/-- What one `addRoute` call produced. -/
inductive AddRouteResult
  | ok
  | parseError (msg : String)
  | kernelError (msg : String)
deriving Repr, DecidableEq

/-- A route handed to `netlink.RouteAdd` (main.go:353-357). -/
structure RouteSpec where
  dst : GoIPNet
  gw : GoIP
  linkIndex : Nat
deriving Repr, DecidableEq

/-- `addRoute` (main.go:340-364). `routeAdd` is the `netlink.RouteAdd`
kernel oracle (`none` = success, `some msg` = the kernel error string);
the second component lists the kernel calls issued. Parse as CIDR and
use the parsed network; otherwise parse as a bare IP with
`CIDRMask(32, 32)` unconditionally; on double parse failure return the
wrapped `ParseCIDR` error without any kernel call. Kernel errors are
wrapped as in the source's `fmt.Errorf`. -/
def addRoute (routeAdd : RouteSpec → Option String)
    (destination : String) (gwIP : GoIP) (ifaceIndex : Nat) :
    AddRouteResult × List RouteSpec :=
  match goParseCIDR destination with
  | some (_, parsedNet) =>
    let route : RouteSpec := { dst := parsedNet, gw := gwIP, linkIndex := ifaceIndex }
    match routeAdd route with
    | none => (.ok, [route])
    | some kmsg =>
      (.kernelError ("error adding route " ++ destination ++ ": " ++ kmsg), [route])
  | none =>
    match goParseIP destination with
    | some ip =>
      let route : RouteSpec :=
        { dst := { ip := ip, mask := { ones := 32, bits := 32 } },
          gw := gwIP, linkIndex := ifaceIndex }
      match routeAdd route with
      | none => (.ok, [route])
      | some kmsg =>
        (.kernelError ("error adding route " ++ destination ++ ": " ++ kmsg), [route])
    | none =>
      (.parseError ("error parsing destination " ++ destination ++ ": "
          ++ parseCIDRErrMsg destination), [])

/-- The error string a worker sees from an `addRoute` result. -/
def attemptResult : AddRouteResult → Option String
  | .ok => none
  | .parseError m => some m
  | .kernelError m => some m

/-- When no classifier pattern occurs in the error string, the
classifier falls through to unknown. -/
lemma classifyError_unknown (s : String)
    (h : ∀ pat ∈ classifyPrecedence.map Prod.fst, goContains s pat = false) :
    classifyError s = "unknown" := by
  unfold classifyError
  rw [h "file exists" (by decide), h "network is unreachable" (by decide),
      h "no such device" (by decide), h "operation not permitted" (by decide),
      h "invalid argument" (by decide), h "no route to host" (by decide)]
  simp

/-! ## Claim theorems: destination parsing -/

/-- C3 (amended): for every destination string that parses neither as
CIDR nor as a bare IP, `addRoute` returns a parse error without issuing
any kernel route-add call; the returned error text is
`error parsing destination <d>: invalid CIDR address: <d>`, and
whenever that text contains none of the classifier's six patterns the
worker records the attempt through `AddError "unknown"` — counted as
UnknownError, not InvalidArgument. -/
theorem malformed_destination_no_kernel_call
    (routeAdd : RouteSpec → Option String) (d gwS ifnS : String)
    (gw : GoIP) (idx : Nat) (st : Stats)
    (hcidr : goParseCIDR d = none) (hip : goParseIP d = none)
    (hpat : ∀ pat ∈ classifyPrecedence.map Prod.fst,
        goContains ("error parsing destination " ++ d ++ ": " ++ parseCIDRErrMsg d) pat
          = false) :
    (addRoute routeAdd d gw idx).2 = [] ∧
    (addRoute routeAdd d gw idx).1
      = AddRouteResult.parseError
          ("error parsing destination " ++ d ++ ": " ++ parseCIDRErrMsg d) ∧
    workerStep gwS ifnS st (d, attemptResult (addRoute routeAdd d gw idx).1)
      = some (st.AddError "unknown") ∧
    (st.AddError "unknown").UnknownError = st.UnknownError + 1 ∧
    (st.AddError "unknown").InvalidArgument = st.InvalidArgument := by
  have haddr : addRoute routeAdd d gw idx
      = (AddRouteResult.parseError
          ("error parsing destination " ++ d ++ ": " ++ parseCIDRErrMsg d), []) := by
    unfold addRoute
    rw [hcidr, hip]
  refine ⟨by rw [haddr], by rw [haddr], ?_, rfl, rfl⟩
  rw [haddr]
  simp only [workerStep, attemptResult]
  rw [classifyError_unknown _ hpat, if_neg (by decide), if_neg (by decide)]

/-- Concrete instance of C3 (amended) at destination `not-an-ip`. -/
theorem malformed_destination_no_kernel_call_witness :
    (addRoute (fun _ => none) "not-an-ip" (GoIP.v4 10 0 0 1) 3).2 = [] ∧
    (addRoute (fun _ => none) "not-an-ip" (GoIP.v4 10 0 0 1) 3).1
      = AddRouteResult.parseError
          ("error parsing destination " ++ "not-an-ip" ++ ": "
            ++ parseCIDRErrMsg "not-an-ip") ∧
    workerStep "10.0.0.1" "tun0" NewStats
        ("not-an-ip", attemptResult (addRoute (fun _ => none) "not-an-ip"
          (GoIP.v4 10 0 0 1) 3).1)
      = some (NewStats.AddError "unknown") ∧
    (NewStats.AddError "unknown").UnknownError = NewStats.UnknownError + 1 ∧
    (NewStats.AddError "unknown").InvalidArgument = NewStats.InvalidArgument :=
  malformed_destination_no_kernel_call (fun _ => none) "not-an-ip" "10.0.0.1" "tun0"
    (GoIP.v4 10 0 0 1) 3 NewStats (by decide) (by decide) (by decide)

/-- C3 counterexample: a batch of the single destination `not-an-ip`
ends with UnknownError = 1 and InvalidArgument = 0 — the report reads
`Unknown errors: 1`, not `Invalid argument: 1` (the `ParseCIDR` error
text does not contain the kernel string `invalid argument`). -/
theorem malformed_destination_not_invalid_argument :
    runBatch "10.0.0.1" "tun0" NewStats
        [("not-an-ip",
          attemptResult (addRoute (fun _ => none) "not-an-ip" (GoIP.v4 10 0 0 1) 3).1)]
      = some { NewStats with UnknownError := 1 } ∧
    ({ NewStats with UnknownError := 1 } : Stats).InvalidArgument = 0 ∧
    ({ NewStats with UnknownError := 1 } : Stats).UnknownError = 1 := by
  decide

/-- C4 (amended): parsing succeeds on every well-formed destination and
the issued route uses it: a CIDR destination keeps exactly the prefix
length stated after its first slash (the network's mask is
`CIDRMask(n, BitLen)` for the stated `n`), while a bare address —
IPv4 or IPv6 alike — receives the 32-bit mask `CIDRMask(32, 32)`
unconditionally (`/32` for IPv4, and the same 32-bit mask rather than
`/128` for a bare IPv6). -/
theorem destination_parse_mask
    (routeAdd : RouteSpec → Option String) (d : String) (gw : GoIP) (idx : Nat) :
    (∀ ip pn, goParseCIDR d = some (ip, pn) →
        (addRoute routeAdd d gw idx).2 = [{ dst := pn, gw := gw, linkIndex := idx }] ∧
        pn.mask.bits = ip.bitLen ∧
        dtoiAll ((d.toList.dropWhile (fun c => c ≠ '/')).tail) 0 = some pn.mask.ones) ∧
    (goParseCIDR d = none → ∀ ip, goParseIP d = some ip →
        (addRoute routeAdd d gw idx).2
          = [{ dst := { ip := ip, mask := { ones := 32, bits := 32 } },
               gw := gw, linkIndex := idx }]) := by
  constructor
  · intro ip pn h
    refine ⟨?_, ?_⟩
    · unfold addRoute
      rw [h]
      dsimp only
      cases routeAdd { dst := pn, gw := gw, linkIndex := idx } <;> rfl
    · unfold goParseCIDR at h
      dsimp only at h
      split_ifs at h with hslash
      · split at h
        · exact absurd h (by simp)
        · rename_i ip2 _
          split at h
          · exact absurd h (by simp)
          · split at h
            · exact absurd h (by simp)
            · rename_i n hdtoi
              split_ifs at h with hbits
              simp only [Option.some.injEq, Prod.mk.injEq] at h
              obtain ⟨h1, h2⟩ := h
              subst h1
              subst h2
              exact ⟨rfl, hdtoi⟩
  · intro hc ip hip2
    unfold addRoute
    rw [hc, hip2]
    dsimp only
    cases routeAdd { dst := { ip := ip, mask := { ones := 32, bits := 32 } },
                     gw := gw, linkIndex := idx } <;> rfl

/-- Concrete instance of C4 (amended): a /24 CIDR keeps prefix 24 and a
bare IPv4 gets the 32-bit mask. -/
theorem destination_parse_mask_witness :
    (addRoute (fun _ => none) "10.0.0.0/24" (GoIP.v4 10 0 0 1) 3).2
      = [{ dst := { ip := GoIP.v4 10 0 0 0, mask := { ones := 24, bits := 32 } },
           gw := GoIP.v4 10 0 0 1, linkIndex := 3 }] ∧
    (addRoute (fun _ => none) "203.0.113.9" (GoIP.v4 10 0 0 1) 3).2
      = [{ dst := { ip := GoIP.v4 203 0 113 9, mask := { ones := 32, bits := 32 } },
           gw := GoIP.v4 10 0 0 1, linkIndex := 3 }] :=
  ⟨((destination_parse_mask (fun _ => none) "10.0.0.0/24" (GoIP.v4 10 0 0 1) 3).1
      (GoIP.v4 10 0 0 0)
      { ip := GoIP.v4 10 0 0 0, mask := { ones := 24, bits := 32 } } (by decide)).1,
   (destination_parse_mask (fun _ => none) "203.0.113.9" (GoIP.v4 10 0 0 1) 3).2
      (by decide) (GoIP.v4 203 0 113 9) (by decide)⟩

/-- C4 counterexample: the bare IPv6 destination `::1` parses as a
16-byte address yet the route issued for it carries the 4-byte mask
`CIDRMask(32, 32)` — not the /128 host mask the claim states. -/
theorem bare_ipv6_not_slash128 :
    goParseCIDR "::1" = none ∧
    goParseIP "::1"
      = some (GoIP.v6 [0, 0, 0, 0, 0, 0, 0, 0, 0, 0, 0, 0, 0, 0, 0, 1]) ∧
    (addRoute (fun _ => none) "::1" (GoIP.v4 10 0 0 1) 3).2
      = [{ dst := { ip := GoIP.v6 [0, 0, 0, 0, 0, 0, 0, 0, 0, 0, 0, 0, 0, 0, 0, 1],
                    mask := { ones := 32, bits := 32 } },
           gw := GoIP.v4 10 0 0 1, linkIndex := 3 }] ∧
    ({ ones := 32, bits := 32 } : GoIPMask) ≠ { ones := 128, bits := 128 } := by
  decide

end Srtunectl
